import Mathlib

/-!
Shallow embedding of `src/dind.py`, a Streamlit dashboard that drives a Docker
engine either over a TCP API client or over SSH-issued CLI commands.

External effects are modelled as explicit oracles:
* the Docker engine / docker-py SDK is a function from a request to
  `Except String _` — `Except.error e` models a raised `DockerException`
  (or any Python exception) carrying message `e`;
* the SSH transport is a function returning either the `(stdout, stderr)`
  pair of the remote command or a raised connection error;
* `st.cache_resource` is modelled by explicit state passing of a cache that
  maps the argument string (the URI) to the cached return value, together
  with a counter of how many real connection attempts (handshakes) happened.

A Python handler body with no `try/except` around a raising call propagates
the exception to the caller; this is modelled by an `uncaught` constructor in
the handler outcome type.  Handlers wrapped in `try/except Exception as e:
st.error(str(e))` are modelled as total functions into a `uiError` outcome.
-/

namespace Dind

/-- Python `str.lower()`, modelled character-wise. -/
def lowerStr (s : String) : String := ⟨s.data.map Char.toLower⟩

/-- Python `needle in hay` on strings: substring containment. -/
def strContains (hay needle : String) : Bool := decide (needle.data <:+: hay.data)

/-- `ContainerRef` as rendered by the app: the attributes of a docker-py
`Container` object that `main` reads (`id`, `short_id`, `name`, `status`). -/
structure Container where
  id : String
  short_id : String
  name : String
  status : String
deriving DecidableEq, Repr

/-- `ImageRef`: the attributes of a docker-py `Image` object that `main`
reads (`id`, `short_id`, `tags`). -/
structure Image where
  id : String
  short_id : String
  tags : List String
deriving DecidableEq, Repr

/-- The radio-button connection mode at line 53: either
`"Local Docker TCP"` or `"SSH to Remote Docker"`. -/
inductive Mode
  | tcp
  | ssh
deriving DecidableEq, Repr

/-- `docker.DockerClient(base_url=docker_host)`: the client object holds the
URI it was constructed against.  Two clients built against different URIs are
distinct objects. -/
structure DockerClient where
  base_url : String
deriving DecidableEq, Repr

/-- The state of the `@st.cache_resource` cache attached to
`get_docker_client_via_tcp`: an association list from the function argument
(the URI string, the only parameter) to the cached return value, plus a count
of real connection attempts performed so far ("handshakes"). -/
structure CacheState where
  entries : List (String × Option DockerClient)
  handshakes : Nat
deriving Repr

/-- Association-list lookup used by the cache model. -/
def lookupEntry : List (String × Option DockerClient) → String → Option (Option DockerClient)
  | [], _ => none
  | (k, v) :: rest, u => if k = u then some v else lookupEntry rest u

/-- The body of `get_docker_client_via_tcp` (lines 22-28), run when the cache
misses: construct a `DockerClient` for the URI and `ping()` it; on a
`DockerException` the handler shows `st.error(...)` and returns `None`.
`pingOk` is the engine-reachability oracle: whether `client.ping()` succeeds
for a given URI. -/
def connect_attempt (pingOk : String → Bool) (uri : String) : Option DockerClient :=
  if pingOk uri then some ⟨uri⟩ else none

/-- `get_docker_client_via_tcp` (lines 20-28) under `@st.cache_resource`:
on a cache hit the stored value (a client or `None`) is returned with no new
connection attempt; on a miss the body runs once, its return value — whatever
it is, including `None` — is stored under the URI key, and the handshake
counter advances. -/
def get_docker_client_via_tcp (pingOk : String → Bool) (s : CacheState) (uri : String) :
    Option DockerClient × CacheState :=
  match lookupEntry s.entries uri with
  | some v => (v, s)
  | none =>
      let v := connect_attempt pingOk uri
      (v, ⟨(uri, v) :: s.entries, s.handshakes + 1⟩)

/-- The SSH transport oracle: given host, username, password and command,
either the remote command ran and produced a `(stdout, stderr)` pair of
decoded strings, or some step of `SSHClient.connect` / `exec_command` raised
an exception with message `e`. -/
def SshNet : Type := String → String → String → String → Except String (String × String)

/-- `run_ssh_command` (lines 31-43): runs one command over SSH and returns
stdout if non-empty (Python truthiness of `output`), else stderr; the
catch-all `except Exception as e` turns any raised error into the literal
string `"SSH connection error: " ++ e`, so the function never raises. -/
def run_ssh_command (net : SshNet) (host username password command : String) : String :=
  match net host username password command with
  | .ok (output, error) => if output ≠ "" then output else error
  | .error e => "SSH connection error: " ++ e

/-- Lines 78 and 81: `containers = client.containers.list(all=True) if mode ==
"Local Docker TCP" else []`, then `filtered = [c for c in containers if
search.lower() in c.name.lower()] if search else containers`.  `engine` is the
engine's listing as returned by `client.containers.list(all=True)`. -/
def list_containers (mode : Mode) (engine : List Container) (search : String) :
    List Container :=
  let containers := if mode = Mode.tcp then engine else []
  if search ≠ "" then
    containers.filter (fun c => strContains (lowerStr c.name) (lowerStr search))
  else containers

/-- Lines 125 and 127: `images = client.images.list() if mode == "Local Docker
TCP" else []`, then `filtered_img = [i for i in images if any(search_img in
tag for tag in i.tags)] if search_img else images`.  Note the tag match is
case-sensitive, unlike the container name match. -/
def list_images (mode : Mode) (engine : List Image) (search_img : String) :
    List Image :=
  let images := if mode = Mode.tcp then engine else []
  if search_img ≠ "" then
    images.filter (fun i => i.tags.any (fun tag => strContains tag search_img))
  else images

/-- The seven mutating intents the spec's error policy ranges over. -/
inductive MutIntent
  | start
  | stop
  | restart
  | remove_container
  | create_and_run
  | pull_image
  | remove_image
deriving DecidableEq, Repr

/-- The engine-side behaviour oracle for a mutating intent: `.ok payload`
(payload is e.g. the new container's `short_id` for `create_and_run`) or a
raised `DockerException`/`APIError` with message `e`. -/
structure Engine where
  act : MutIntent → Except String String

/-- What a button handler produces, seen from the caller (the Streamlit
runtime): a success message (`st.success`), a caught error rendered as text
(`st.error` inside an `except` block), or an exception that propagates out of
the handler uncaught. -/
inductive Outcome
  | uiSuccess (msg : String)
  | uiError (msg : String)
  | uncaught (exc : String)
deriving DecidableEq, Repr

/-- An outcome is "caught" when it is a rendered message rather than a
propagating exception. -/
def caught : Outcome → Bool
  | .uiSuccess _ => true
  | .uiError _ => true
  | .uncaught _ => false

/-- The button handlers of `main` for the mutating intents, exactly as the
source wraps (or does not wrap) each backend call:
* lines 92-99: `container.start()/stop()/restart()/remove(force=True)` are
  bare calls followed by `st.success(...)` — no `try`, so an engine failure
  propagates;
* lines 115-120: `client.containers.run(img, cmd or None, detach=True)`
  inside `try/except Exception as e: st.error(str(e))`;
* lines 131-136: `client.images.remove(img.id, force=True)` inside
  `try/except`;
* lines 140-145: `client.images.pull(new_image)` inside `try/except`. -/
def dispatch (eng : Engine) : MutIntent → Outcome
  | .start =>
      match eng.act .start with
      | .ok _ => .uiSuccess "Started."
      | .error e => .uncaught e
  | .stop =>
      match eng.act .stop with
      | .ok _ => .uiSuccess "Stopped."
      | .error e => .uncaught e
  | .restart =>
      match eng.act .restart with
      | .ok _ => .uiSuccess "Restarted."
      | .error e => .uncaught e
  | .remove_container =>
      match eng.act .remove_container with
      | .ok _ => .uiSuccess "Removed."
      | .error e => .uncaught e
  | .create_and_run =>
      match eng.act .create_and_run with
      | .ok short_id => .uiSuccess ("Started new container: " ++ short_id)
      | .error e => .uiError e
  | .pull_image =>
      match eng.act .pull_image with
      | .ok _ => .uiSuccess "Image pulled successfully"
      | .error e => .uiError e
  | .remove_image =>
      match eng.act .remove_image with
      | .ok _ => .uiSuccess "Image removed"
      | .error e => .uiError e

/-- The fields of the engine's stats sample that lines 104-105 read:
`stats["memory_stats"]["usage"]` and
`stats["cpu_stats"]["cpu_usage"]["total_usage"]`. -/
structure StatsSample where
  mem_usage : Nat
  cpu_total_usage : Nat
deriving DecidableEq, Repr

/-- What the live-stats block produces: the `st.info` rendering of the
memory/CPU pair, or an exception propagating out of the block. -/
inductive StatsOutcome
  | shown (memMB : ℚ) (cpu : Nat)
  | uncaught (exc : String)
deriving DecidableEq, Repr

/-- Lines 102-106: `stats = container.stats(stream=False)` (a single
non-streaming sample, here the oracle argument `statsCall`), then
`mem = stats["memory_stats"]["usage"] / (1024 ** 2)` and
`cpu = stats["cpu_stats"]["cpu_usage"]["total_usage"]`, rendered with
`st.info`.  There is no `try/except` in this block: a raising stats call
propagates out of the handler. -/
def fetch_stats (statsCall : Except String StatsSample) : StatsOutcome :=
  match statsCall with
  | .ok s => .shown ((s.mem_usage : ℚ) / (1024 ^ 2)) s.cpu_total_usage
  | .error e => .uncaught e

/-- What the exec tab's "Run Command" handler produces. -/
inductive ExecOutcome
  | shown (output : String)
  | uncaught (exc : String)
deriving DecidableEq, Repr

/-- Modelled behaviour of docker-py `client.api.exec_create(cid, command)`
(an external collaborator, not repository code): it raises `NotFound` when no
container has the id and an `APIError` (HTTP 409, "is not running") when the
target container is not running; otherwise it returns a fresh exec id. -/
def docker_exec_create (containers : List Container) (cid command : String) :
    Except String String :=
  match containers.find? (fun c => c.id == cid) with
  | none => .error ("No such container: " ++ cid)
  | some c =>
      if c.status = "running" then .ok ("exec-" ++ cid ++ "-" ++ command)
      else .error ("Container " ++ cid ++ " is not running")

/-- Lines 164-167: `exec_id = client.api.exec_create(c.id, command)` then
`output = client.api.exec_start(exec_id).decode()`, with no `try/except`; a
raise from either call propagates out of the handler.  `execStart` is the
oracle for `exec_start`.  The handler never writes to the containers listing,
which is returned unchanged alongside the outcome. -/
def exec_in_container (containers : List Container)
    (execStart : String → Except String String) (cid command : String) :
    ExecOutcome × List Container :=
  match docker_exec_create containers cid command with
  | .error e => (.uncaught e, containers)
  | .ok exec_id =>
      match execStart exec_id with
      | .ok out => (.shown out, containers)
      | .error e => (.uncaught e, containers)

/-- A run of `main` in TCP mode, seen from the operations side: whether a
client was obtained, whether `st.stop()` halted the script (line 59), and
which requested intents actually executed. -/
structure SessionOutcome where
  client : Option DockerClient
  halted : Bool
  executed : List (MutIntent × Outcome)
deriving Repr

/-- Lines 55-59 followed by the intent handlers: `client =
get_docker_client_via_tcp(docker_host); if not client: st.stop()` — when the
connector returns `None` the script halts and none of the requested intents
runs; otherwise each requested intent is dispatched against the engine. -/
def tcp_session (pingOk : String → Bool) (s : CacheState) (uri : String)
    (eng : Engine) (requests : List MutIntent) : SessionOutcome :=
  match (get_docker_client_via_tcp pingOk s uri).1 with
  | none => { client := none, halted := true, executed := [] }
  | some cl =>
      { client := some cl, halted := false,
        executed := requests.map (fun i => (i, dispatch eng i)) }

/-- A cache state is well-formed for a given reachability oracle when every
stored entry is the value a real connection attempt against its key would
produce — i.e. the state arose from runs of `get_docker_client_via_tcp`. -/
def CacheState.WF (pingOk : String → Bool) (s : CacheState) : Prop :=
  ∀ k v, lookupEntry s.entries k = some v → v = connect_attempt pingOk k

/-! ## Shared helper lemmas about the connection cache -/

/-- On a well-formed cache state, the value returned for a URI is exactly what
a real connection attempt against that URI produces — whether it comes from
the cache or from running the body. -/
theorem get_client_fst (pingOk : String → Bool) (s : CacheState) (u : String)
    (hwf : CacheState.WF pingOk s) :
    (get_docker_client_via_tcp pingOk s u).1 = connect_attempt pingOk u := by
  unfold get_docker_client_via_tcp
  cases h : lookupEntry s.entries u with
  | none => simp
  | some v => simpa using hwf u v h

/-- After any call, the cache holds an entry for the URI equal to the value
that call returned. -/
theorem lookup_after_call (pingOk : String → Bool) (s : CacheState) (u : String) :
    lookupEntry (get_docker_client_via_tcp pingOk s u).2.entries u =
      some (get_docker_client_via_tcp pingOk s u).1 := by
  unfold get_docker_client_via_tcp
  cases h : lookupEntry s.entries u with
  | none => simp [lookupEntry]
  | some v => simpa using h

/-- A call whose URI already has a cache entry returns that entry and leaves
the state — entries and handshake count alike — unchanged. -/
theorem call_on_hit (pingOk : String → Bool) (s : CacheState) (u : String)
    (v : Option DockerClient) (h : lookupEntry s.entries u = some v) :
    get_docker_client_via_tcp pingOk s u = (v, s) := by
  unfold get_docker_client_via_tcp
  rw [h]

/-! ## Claim theorems -/

/-- Claim C4: `run_ssh_command` returns the command's stdout when non-empty,
otherwise its stderr; when the SSH transport raises (e.g. host unreachable),
it returns the literal connection-error string and never raises — the model
is a total function, mirroring the catch-all `except Exception`. -/
theorem run_ssh_command_spec (net : SshNet) (host user pass cmd : String) :
    (∀ out err, net host user pass cmd = Except.ok (out, err) →
      (out ≠ "" ∧ run_ssh_command net host user pass cmd = out) ∨
      (out = "" ∧ run_ssh_command net host user pass cmd = err)) ∧
    (∀ e, net host user pass cmd = Except.error e →
      run_ssh_command net host user pass cmd = "SSH connection error: " ++ e) := by
  constructor
  · intro out err hnet
    by_cases h : out = ""
    · right
      exact ⟨h, by simp [run_ssh_command, hnet, h]⟩
    · left
      exact ⟨h, by simp [run_ssh_command, hnet, h]⟩
  · intro e hnet
    simp [run_ssh_command, hnet]

/-- Witness for C4: against an unreachable host (every transport step raises
a timeout), `run_ssh_command` returns the connection-error string. -/
theorem run_ssh_command_spec_witness :
    run_ssh_command (fun _ _ _ _ => Except.error "timed out") "10.0.0.9" "root" "pw"
      "docker ps -a" = "SSH connection error: timed out" :=
  (run_ssh_command_spec (fun _ _ _ _ => Except.error "timed out") "10.0.0.9" "root" "pw"
    "docker ps -a").2 "timed out" rfl

/-- Claim C5: in TCP mode, the empty filter returns the engine listing
unchanged; a non-empty filter returns exactly the containers whose name
contains the filter case-insensitively, and the result is always an ordered
sublist of the engine listing (order preserved). -/
theorem list_containers_spec (engine : List Container) (s : String) :
    list_containers Mode.tcp engine "" = engine ∧
    (s ≠ "" → list_containers Mode.tcp engine s =
      engine.filter (fun c => strContains (lowerStr c.name) (lowerStr s))) ∧
    (s ≠ "" → ∀ c, c ∈ list_containers Mode.tcp engine s ↔
      c ∈ engine ∧ (lowerStr s).data <:+: (lowerStr c.name).data) ∧
    List.Sublist (list_containers Mode.tcp engine s) engine := by
  refine ⟨by simp [list_containers], ?_, ?_, ?_⟩
  · intro h
    simp [list_containers, h]
  · intro h c
    simp [list_containers, h, List.mem_filter, strContains]
  · by_cases h : s = ""
    · simp [list_containers, h]
    · simp only [list_containers, h, ne_eq, not_false_iff, if_true, if_pos]
      exact List.filter_sublist engine

/-- Witness for C5: the mixed-case name `WebServer` matches the lower-case
filter `webs`. -/
theorem list_containers_spec_witness :
    (⟨"c1", "c1", "WebServer", "running"⟩ : Container) ∈
      list_containers Mode.tcp [⟨"c1", "c1", "WebServer", "running"⟩] "webs" :=
  ((list_containers_spec [⟨"c1", "c1", "WebServer", "running"⟩] "webs").2.2.1
    (by decide) _).mpr ⟨by simp, by decide⟩

/-- Claim C8: with the SSH backend active, the structured listing intents
return the empty sequence for every filter string and every engine content —
only raw command pass-through is served over SSH. -/
theorem ssh_mode_empty_listings (engineC : List Container) (engineI : List Image)
    (s t : String) :
    list_containers Mode.ssh engineC s = [] ∧ list_images Mode.ssh engineI t = [] := by
  constructor
  · by_cases h : s = "" <;> simp [list_containers, h]
  · by_cases h : t = "" <;> simp [list_images, h]

/-- Claim C10: in TCP mode, the empty image query returns the full listing;
a non-empty query returns exactly the images having some tag containing the
query as a case-sensitive substring. -/
theorem list_images_spec (engine : List Image) (s : String) (h : s ≠ "") :
    list_images Mode.tcp engine "" = engine ∧
    list_images Mode.tcp engine s =
      engine.filter (fun i => i.tags.any (fun tag => strContains tag s)) ∧
    (∀ i, i ∈ list_images Mode.tcp engine s ↔
      i ∈ engine ∧ ∃ tag ∈ i.tags, s.data <:+: tag.data) := by
  refine ⟨by simp [list_images], by simp [list_images, h], ?_⟩
  intro i
  simp [list_images, h, List.mem_filter, List.any_eq_true, strContains]

/-- Witness for C10: the query `nginx` matches the tag `nginx:latest` but not
the tag `Nginx:latest` — the image filter is case-sensitive, unlike the
container name filter. -/
theorem list_images_spec_witness :
    (⟨"sha1", "sha1", ["nginx:latest"]⟩ : Image) ∈
      list_images Mode.tcp [⟨"sha1", "sha1", ["nginx:latest"]⟩] "nginx" ∧
    (⟨"sha2", "sha2", ["Nginx:latest"]⟩ : Image) ∉
      list_images Mode.tcp [⟨"sha2", "sha2", ["Nginx:latest"]⟩] "nginx" := by
  constructor
  · exact ((list_images_spec [⟨"sha1", "sha1", ["nginx:latest"]⟩] "nginx"
      (by decide)).2.2 _).mpr ⟨by simp, "nginx:latest", by simp, by decide⟩
  · intro hmem
    obtain ⟨-, tag, htag, hinf⟩ := ((list_images_spec [⟨"sha2", "sha2", ["Nginx:latest"]⟩]
      "nginx" (by decide)).2.2 _).mp hmem
    simp only [List.mem_singleton] at htag
    subst htag
    exact absurd hinf (by decide)

/-- Counterexample to claim C1 as stated: the `Start` button handler (line
92-93) wraps no `try/except` around `container.start()`, so an engine failure
on the `start` intent propagates uncaught instead of being converted to a
textual error. -/
theorem dispatch_start_uncaught_cex :
    caught (dispatch ⟨fun _ => Except.error "500 Server Error"⟩ MutIntent.start) = false :=
  rfl

/-- Claim C1 amended: only `create_and_run`, `pull_image` and `remove_image`
catch backend failures and convert them to textual errors; the container
lifecycle intents `start`, `stop`, `restart` and `remove` are issued bare, so
any engine failure there propagates uncaught out of the handler. -/
theorem dispatch_catch_policy (eng : Engine) (e : String)
    (h1 : eng.act MutIntent.start = Except.error e)
    (h2 : eng.act MutIntent.stop = Except.error e)
    (h3 : eng.act MutIntent.restart = Except.error e)
    (h4 : eng.act MutIntent.remove_container = Except.error e) :
    caught (dispatch eng MutIntent.create_and_run) = true ∧
    caught (dispatch eng MutIntent.pull_image) = true ∧
    caught (dispatch eng MutIntent.remove_image) = true ∧
    dispatch eng MutIntent.start = Outcome.uncaught e ∧
    dispatch eng MutIntent.stop = Outcome.uncaught e ∧
    dispatch eng MutIntent.restart = Outcome.uncaught e ∧
    dispatch eng MutIntent.remove_container = Outcome.uncaught e := by
  refine ⟨?_, ?_, ?_, ?_, ?_, ?_, ?_⟩
  · cases hc : eng.act MutIntent.create_and_run <;> simp [dispatch, hc, caught]
  · cases hc : eng.act MutIntent.pull_image <;> simp [dispatch, hc, caught]
  · cases hc : eng.act MutIntent.remove_image <;> simp [dispatch, hc, caught]
  · simp [dispatch, h1]
  · simp [dispatch, h2]
  · simp [dispatch, h3]
  · simp [dispatch, h4]

/-- Witness for the amended C1, at an engine that fails every call. -/
theorem dispatch_catch_policy_witness :
    caught (dispatch ⟨fun _ => Except.error "boom"⟩ MutIntent.create_and_run) = true ∧
    dispatch ⟨fun _ => Except.error "boom"⟩ MutIntent.stop = Outcome.uncaught "boom" := by
  have h := dispatch_catch_policy ⟨fun _ => Except.error "boom"⟩ "boom" rfl rfl rfl rfl
  exact ⟨h.1, h.2.2.2.2.1⟩

/-- Counterexample to claim C2 as stated: the live-stats block (lines
102-106) has no `try/except`, so a failing stats call yields an uncaught
exception, not a reported error and not a stats pair. -/
theorem fetch_stats_raise_cex :
    fetch_stats (Except.error "engine unavailable") =
      StatsOutcome.uncaught "engine unavailable" :=
  rfl

/-- Claim C2 amended: when the single non-streaming stats sample is obtained,
the block always shows the complete pair — memory equal to the engine's usage
bytes divided by 2^20 and CPU equal to the cumulative `total_usage` — never a
partial structure; when the stats call raises, the exception propagates
uncaught rather than being reported. -/
theorem fetch_stats_shape (s : StatsSample) (e : String) :
    fetch_stats (Except.ok s) =
      StatsOutcome.shown ((s.mem_usage : ℚ) / 2 ^ 20) s.cpu_total_usage ∧
    fetch_stats (Except.error e) = StatsOutcome.uncaught e := by
  refine ⟨?_, rfl⟩
  simp only [fetch_stats]
  norm_num

/-- Counterexample to claim C3 as stated: exec against a container whose
status is not `running` ends in an uncaught exception (the exec handler at
lines 165-167 has no `try/except`), not in a reported textual error. -/
theorem exec_stopped_uncaught_cex :
    exec_in_container [⟨"c1", "c1", "web", "exited"⟩] (fun _ => Except.ok "") "c1" "ls -l" =
      (ExecOutcome.uncaught "Container c1 is not running",
        [⟨"c1", "c1", "web", "exited"⟩]) :=
  rfl

/-- Claim C3 amended: exec on a listed container that is not running raises
an uncaught exception (the `exec_create` rejection is not caught), and the
containers listing — including the target's status — is returned unchanged
by the attempt. -/
theorem exec_in_container_stopped (containers : List Container)
    (execStart : String → Except String String) (cid command : String) (c : Container)
    (hfind : containers.find? (fun x => x.id == cid) = some c)
    (hst : c.status ≠ "running") :
    exec_in_container containers execStart cid command =
      (ExecOutcome.uncaught ("Container " ++ cid ++ " is not running"), containers) := by
  simp [exec_in_container, docker_exec_create, hfind, hst]

/-- Witness for the amended C3, on a paused container. -/
theorem exec_in_container_stopped_witness :
    exec_in_container [⟨"c9", "c9", "db", "paused"⟩] (fun _ => Except.ok "out") "c9" "ps" =
      (ExecOutcome.uncaught "Container c9 is not running",
        [⟨"c9", "c9", "db", "paused"⟩]) :=
  exec_in_container_stopped [⟨"c9", "c9", "db", "paused"⟩] (fun _ => Except.ok "out")
    "c9" "ps" ⟨"c9", "c9", "db", "paused"⟩ rfl (by decide)

/-- Claim C6: from any well-formed cache state, connecting to a reachable URI
returns the client built for exactly that URI; calling again with the same
URI returns the identical value with the state (and hence the handshake
count) unchanged — no second handshake; and two distinct reachable URIs
never yield the same client. -/
theorem connect_tcp_memoized (pingOk : String → Bool) (s : CacheState) (u v : String)
    (hwf : CacheState.WF pingOk s) (hu : pingOk u = true) (hv : pingOk v = true)
    (huv : u ≠ v) :
    (get_docker_client_via_tcp pingOk s u).1 = some ⟨u⟩ ∧
    get_docker_client_via_tcp pingOk (get_docker_client_via_tcp pingOk s u).2 u =
      ((get_docker_client_via_tcp pingOk s u).1,
        (get_docker_client_via_tcp pingOk s u).2) ∧
    (get_docker_client_via_tcp pingOk s u).1 ≠ (get_docker_client_via_tcp pingOk s v).1 := by
  have hfu : (get_docker_client_via_tcp pingOk s u).1 = some ⟨u⟩ := by
    rw [get_client_fst pingOk s u hwf]
    simp [connect_attempt, hu]
  have hfv : (get_docker_client_via_tcp pingOk s v).1 = some ⟨v⟩ := by
    rw [get_client_fst pingOk s v hwf]
    simp [connect_attempt, hv]
  refine ⟨hfu, ?_, ?_⟩
  · exact call_on_hit pingOk _ u _ (lookup_after_call pingOk s u)
  · rw [hfu, hfv]
    intro hcontra
    exact huv (DockerClient.mk.injEq u v ▸ congrArg (Option.getD · ⟨""⟩) hcontra)

/-- Witness for C6, from the empty cache with both endpoints reachable. -/
theorem connect_tcp_memoized_witness :
    (get_docker_client_via_tcp (fun _ => true) ⟨[], 0⟩ "tcp://localhost:2375").1 =
      some ⟨"tcp://localhost:2375"⟩ ∧
    (get_docker_client_via_tcp (fun _ => true) ⟨[], 0⟩ "tcp://localhost:2375").1 ≠
      (get_docker_client_via_tcp (fun _ => true) ⟨[], 0⟩ "tcp://10.0.0.5:2375").1 := by
  have h := connect_tcp_memoized (fun _ => true) ⟨[], 0⟩ "tcp://localhost:2375"
    "tcp://10.0.0.5:2375" (fun k v hk => by simp [lookupEntry] at hk) rfl rfl (by decide)
  exact ⟨h.1, h.2.2⟩

/-- Claim C7: a TCP-mode session run never executes an operation without an
established connection — when the connector yields no client the script
halts (`st.stop`) with nothing executed, and any run that executed an
operation had a client. -/
theorem no_op_without_connection (pingOk : String → Bool) (s : CacheState) (uri : String)
    (eng : Engine) (requests : List MutIntent) :
    ((tcp_session pingOk s uri eng requests).client = none →
      (tcp_session pingOk s uri eng requests).halted = true ∧
      (tcp_session pingOk s uri eng requests).executed = []) ∧
    ((tcp_session pingOk s uri eng requests).executed ≠ [] →
      ∃ cl, (tcp_session pingOk s uri eng requests).client = some cl) := by
  unfold tcp_session
  cases h : (get_docker_client_via_tcp pingOk s uri).1 <;> simp

/-- Witness for C7: with an unreachable daemon, requested intents do not
execute and the session halts. -/
theorem no_op_without_connection_witness :
    (tcp_session (fun _ => false) ⟨[], 0⟩ "tcp://localhost:2375"
      ⟨fun _ => Except.ok ""⟩ [MutIntent.start, MutIntent.stop]).halted = true ∧
    (tcp_session (fun _ => false) ⟨[], 0⟩ "tcp://localhost:2375"
      ⟨fun _ => Except.ok ""⟩ [MutIntent.start, MutIntent.stop]).executed = [] :=
  (no_op_without_connection (fun _ => false) ⟨[], 0⟩ "tcp://localhost:2375"
    ⟨fun _ => Except.ok ""⟩ [MutIntent.start, MutIntent.stop]).1 rfl

/-- Claim C9: when the connection attempt for a URI fails, `None` is returned
and memoized under that URI: the failing call stores `None` (after one
handshake), and every call on any state whose cache maps the URI to `None`
returns `None` with the state — entries and handshake count — unchanged, so
the endpoint is never automatically retried. -/
theorem failed_connect_memoized (pingOk : String → Bool) (s : CacheState) (u : String)
    (hu : pingOk u = false) (hfresh : lookupEntry s.entries u = none) :
    (get_docker_client_via_tcp pingOk s u).1 = none ∧
    (get_docker_client_via_tcp pingOk s u).2.handshakes = s.handshakes + 1 ∧
    lookupEntry (get_docker_client_via_tcp pingOk s u).2.entries u = some none ∧
    (∀ t : CacheState, lookupEntry t.entries u = some none →
      get_docker_client_via_tcp pingOk t u = (none, t)) := by
  have hnone : connect_attempt pingOk u = none := by simp [connect_attempt, hu]
  refine ⟨?_, ?_, ?_, ?_⟩
  · unfold get_docker_client_via_tcp
    rw [hfresh]
    simp [hnone]
  · unfold get_docker_client_via_tcp
    rw [hfresh]
  · have h := lookup_after_call pingOk s u
    rwa [show (get_docker_client_via_tcp pingOk s u).1 = none from by
      unfold get_docker_client_via_tcp; rw [hfresh]; simp [hnone]] at h
  · intro t ht
    exact call_on_hit pingOk t u none ht

/-- Witness for C9: a failed endpoint is cached as `None` and a later call on
the resulting cached state returns `None` without touching the state. -/
theorem failed_connect_memoized_witness :
    (get_docker_client_via_tcp (fun _ => false) ⟨[], 0⟩ "tcp://down:2375").1 = none ∧
    get_docker_client_via_tcp (fun _ => false) ⟨[("tcp://down:2375", none)], 1⟩
      "tcp://down:2375" = (none, ⟨[("tcp://down:2375", none)], 1⟩) := by
  have h := failed_connect_memoized (fun _ => false) ⟨[], 0⟩ "tcp://down:2375" rfl rfl
  exact ⟨h.1, h.2.2.2 ⟨[("tcp://down:2375", none)], 1⟩ (by simp [lookupEntry])⟩

end Dind
